import Mathlib

/-!
Verification of the waldur-mastermind invoice billing-period and
downtime-adjustment engine, shallowly embedded from
`src/nodeconductor_assembly_waldur/invoices/models.py` and, for the parts of
the repository whose sources are not available (the downtime registry and the
compensation engine, exercised by `src/waldur_mastermind/invoices/tests/test_downtime.py`),
modelled from the specification.

Timestamps are integers counting microseconds since an epoch in the single
fixed reference timezone the spec requires; Python `timedelta.days` is floor
division by the number of microseconds in a day.
-/

namespace Waldur

/-- Microseconds in one day (Python datetime resolution is the microsecond). -/
def usecPerDay : Int := 86400000000

/-- Microseconds in one second. -/
def usecPerSecond : Int := 1000000

/-- Python `timedelta.days`: floor division of the difference by one day. -/
def tdDays (d : Int) : Int := Int.fdiv d usecPerDay

/-- Python `datetime.replace(hour=23, minute=59, second=59)`: keeps the day and
the microsecond component, sets the time of day to 23:59:59. -/
def end_of_day_replace (t : Int) : Int :=
  Int.fdiv t usecPerDay * usecPerDay + 86399 * usecPerSecond + t % usecPerSecond

/-- Modelled from the spec: `utils.get_full_days` is imported by
`invoices/models.py` but its source is not available; per spec section 4.1,
`fullDays(start, end)` is the number of complete 24-hour days between the two
timestamps, truncating any partial day, and zero if end is at or before start. -/
def get_full_days (start stop : Int) : Nat :=
  (tdDays (stop - start)).toNat

/-- Live source object of an `OfferingItem` (`support_models.Offering`):
only the fields read by `OfferingItem.name` and `OfferingItem.freeze`. -/
structure Offering where
  project_name : String
  type : String
deriving DecidableEq, Repr

/-- The `offering_details` JSON blob; keys written by `OfferingItem.freeze`. -/
structure OfferingDetails where
  project_name : Option String := none
  offering_type : Option String := none
deriving DecidableEq, Repr

/-- Live source object of an `OpenStackItem` (`package_models.OpenStackPackage`):
only the fields read by `OpenStackItem.name` and `OpenStackItem.freeze`. -/
structure Package where
  tenant_name : String
  tenant_uuid : String
  template_name : String
  template_uuid : String
deriving DecidableEq, Repr

/-- The `package_details` JSON blob; keys written by `OpenStackItem.freeze`. -/
structure PackageDetails where
  tenant_name : Option String := none
  tenant_uuid : Option String := none
  template_name : Option String := none
  template_uuid : Option String := none
deriving DecidableEq, Repr

/-- `OfferingItem`: invoice item for a purchased custom offering.  The shared
`InvoiceItem` fields `daily_price`, `start`, `end` come from the abstract base
class; `end` is a Lean keyword so the field is named `end_`. -/
structure OfferingItem where
  daily_price : ℚ
  start : Int
  end_ : Int
  offering : Option Offering
  offering_details : OfferingDetails := {}
deriving DecidableEq, Repr

/-- `OpenStackItem`: invoice item for a purchased OpenStack package. -/
structure OpenStackItem where
  daily_price : ℚ
  start : Int
  end_ : Int
  package : Option Package
  package_details : PackageDetails := {}
deriving DecidableEq, Repr

/-- `OfferingItem.freeze`: saves offering type and project name in the details
blob if the offering exists; otherwise does nothing. -/
def OfferingItem.freeze (i : OfferingItem) : OfferingItem :=
  match i.offering with
  | some o =>
      { i with offering_details :=
          { project_name := some o.project_name, offering_type := some o.type } }
  | none => i

/-- `OpenStackItem.freeze`: saves tenant and template names and uuids in the
details blob if the package exists; otherwise does nothing. -/
def OpenStackItem.freeze (i : OpenStackItem) : OpenStackItem :=
  match i.package with
  | some p =>
      { i with package_details :=
          { tenant_name := some p.tenant_name, tenant_uuid := some p.tenant_uuid,
            template_name := some p.template_name, template_uuid := some p.template_uuid } }
  | none => i

/-- `InvoiceItem.terminate(end=None)`: freezes the item, then sets
`self.end = end or timezone.now()` (a missing argument defaults to now). -/
def OfferingItem.terminate (i : OfferingItem) (endOpt : Option Int) (now : Int) : OfferingItem :=
  { i.freeze with end_ := endOpt.getD now }

/-- `InvoiceItem.terminate(end=None)` on the OpenStack item kind. -/
def OpenStackItem.terminate (i : OpenStackItem) (endOpt : Option Int) (now : Int) : OpenStackItem :=
  { i.freeze with end_ := endOpt.getD now }

/-- `OpenStackItem.shift_backward(days=1)`: if `(end - start).days > days` the
end moves one day back, otherwise the window collapses to zero length. -/
def OpenStackItem.shift_backward (i : OpenStackItem) (days : Int) : OpenStackItem :=
  if tdDays (i.end_ - i.start) > days then
    { i with end_ := i.end_ - usecPerDay }
  else
    { i with end_ := i.start }

/-- `OpenStackItem.extend_to_the_end_of_the_day`: replaces the time of day of
the end timestamp by 23:59:59. -/
def OpenStackItem.extend_to_the_end_of_the_day (i : OpenStackItem) : OpenStackItem :=
  { i with end_ := end_of_day_replace i.end_ }

/-- `InvoiceItem.usage_days`: number of full days between start and end. -/
def OfferingItem.usage_days (i : OfferingItem) : Nat := get_full_days i.start i.end_

/-- `InvoiceItem.price = daily_price * usage_days`. -/
def OfferingItem.price (i : OfferingItem) : ℚ := i.daily_price * i.usage_days

/-- `InvoiceItem.tax = price * invoice.tax_percent / 100`; the owning invoice's
tax percent is passed explicitly. -/
def OfferingItem.tax (i : OfferingItem) (tax_percent : ℚ) : ℚ := i.price * tax_percent / 100

/-- `InvoiceItem.total = price + tax`. -/
def OfferingItem.total (i : OfferingItem) (tax_percent : ℚ) : ℚ := i.price + i.tax tax_percent

/-- `InvoiceItem.usage_days` on the OpenStack item kind. -/
def OpenStackItem.usage_days (i : OpenStackItem) : Nat := get_full_days i.start i.end_

/-- `InvoiceItem.price` on the OpenStack item kind. -/
def OpenStackItem.price (i : OpenStackItem) : ℚ := i.daily_price * i.usage_days

/-- `InvoiceItem.tax` on the OpenStack item kind. -/
def OpenStackItem.tax (i : OpenStackItem) (tax_percent : ℚ) : ℚ := i.price * tax_percent / 100

/-- `InvoiceItem.total` on the OpenStack item kind. -/
def OpenStackItem.total (i : OpenStackItem) (tax_percent : ℚ) : ℚ := i.price + i.tax tax_percent

/-- `Invoice.States`. -/
inductive InvoiceState where
  | pending
  | created
  | paid
  | canceled
deriving DecidableEq, Repr

/-- A monthly `Invoice` with its two child-item collections. -/
structure Invoice where
  state : InvoiceState := InvoiceState.pending
  tax_percent : ℚ := 0
  invoice_date : Option Int := none
  openstack_items : List OpenStackItem := []
  offering_items : List OfferingItem := []
deriving DecidableEq, Repr

/-- `Invoice.freeze`: freezes every OpenStack item, then every offering item. -/
def Invoice.freeze (inv : Invoice) : Invoice :=
  { inv with openstack_items := inv.openstack_items.map OpenStackItem.freeze,
             offering_items := inv.offering_items.map OfferingItem.freeze }

/-- `Invoice.set_created`: raises `IncorrectStateException` unless the state is
pending, otherwise sets state to created and stamps the invoice date.
Modelled from the spec for the freezing step: the method's own docstring says
it freezes all invoice items and the spec states `setCreated` freezes every
child item, but the freeze is performed by a change-tracker signal handler
whose source file is not available, so the pending-to-created transition here
also applies `Invoice.freeze`. -/
def Invoice.set_created (inv : Invoice) (now_date : Int) : Except String Invoice :=
  if inv.state ≠ InvoiceState.pending then
    Except.error "Invoice must be in pending state."
  else
    Except.ok { inv.freeze with state := InvoiceState.created, invoice_date := some now_date }

/-- `Invoice.price`: sum of the prices of the OpenStack items concatenated with
the offering items. -/
def Invoice.price (inv : Invoice) : ℚ :=
  ((inv.openstack_items.map OpenStackItem.price) ++ (inv.offering_items.map OfferingItem.price)).sum

/-- `Invoice.tax = price * tax_percent / 100`. -/
def Invoice.tax (inv : Invoice) : ℚ := inv.price * inv.tax_percent / 100

/-- `Invoice.total = price + tax`. -/
def Invoice.total (inv : Invoice) : ℚ := inv.price + inv.tax

/-- Modelled from the spec: the `ServiceDowntime` model of
`waldur_mastermind.invoices` is exercised by `test_downtime.py` but its source
is not available; per spec section 3 it holds a reference to the billed
resource (here an identifier) and a start and end timestamp. -/
structure ServiceDowntime where
  package : Nat
  start : Int
  end_ : Int
deriving DecidableEq, Repr

/-- Policy configuration for downtime validation: the maximum retroactive
offset and the maximum downtime duration, both in microseconds. -/
structure DowntimeConfig where
  offset : Int
  max_duration : Int
deriving DecidableEq, Repr

/-- Overlap test between two downtime windows for the same resource, as the
spec words it: `existing.start < new.end AND new.start < existing.end`. -/
def downtime_overlap (a b : ServiceDowntime) : Prop :=
  a.package = b.package ∧ a.start < b.end_ ∧ b.start < a.end_

instance (a b : ServiceDowntime) : Decidable (downtime_overlap a b) := by
  unfold downtime_overlap; infer_instance

/-- Modelled from the spec: `ServiceDowntime.clean`, whose source is not
available; per spec section 4.3 validation requires start < end, the start not
further in the past than the configured offset, the duration within the
configured maximum, and no overlap with any existing downtime window of the
same resource. -/
def ServiceDowntime.clean (d : ServiceDowntime) (registry : List ServiceDowntime)
    (now : Int) (cfg : DowntimeConfig) : Bool :=
  decide (d.start < d.end_) &&
  decide (now - d.start ≤ cfg.offset) &&
  decide (d.end_ - d.start ≤ cfg.max_duration) &&
  registry.all fun e => !(decide (downtime_overlap e d))

/-- Modelled from the spec: `report(resource, start, end)` validates the new
downtime window against the registry and inserts it on success, returning a
`ValidationError` otherwise. -/
def report (registry : List ServiceDowntime) (d : ServiceDowntime)
    (now : Int) (cfg : DowntimeConfig) : Except String (List ServiceDowntime) :=
  if d.clean registry now cfg then Except.ok (d :: registry) else Except.error "ValidationError"

/-- Modelled from the spec: `intersect` of the interval arithmetic library
returns the overlapping sub-interval, or nothing when
`a_end ≤ b_start` or `b_end ≤ a_start`. -/
def intersect (a_start a_end b_start b_end : Int) : Option (Int × Int) :=
  if a_end ≤ b_start ∨ b_end ≤ a_start then none
  else some (max a_start b_start, min a_end b_end)

/-- A compensation entry (`GenericInvoiceItem` with no scope): a negative-price
ledger line offsetting downtime, with no live reference back to a resource. -/
structure CompensationEntry where
  start : Int
  end_ : Int
  daily_price : ℚ
deriving DecidableEq, Repr

/-- Modelled from the spec: the Compensation Engine's on-report step, whose
source is not available; per spec section 4.4 it exits when the resource has
no current invoice item, when the item's package reference has been cleared,
or when the downtime does not intersect the item's window, and otherwise
produces an entry spanning the intersection with daily price the negation of
the item's daily price. -/
def adjust_items (item : Option OpenStackItem) (d : ServiceDowntime) : Option CompensationEntry :=
  match item with
  | none => none
  | some it =>
      match it.package with
      | none => none
      | some _ =>
          match intersect d.start d.end_ it.start it.end_ with
          | none => none
          | some (s, e) => some { start := s, end_ := e, daily_price := -it.daily_price }

/-- Modelled from the spec: reporting a downtime adds the compensation entry
produced by the engine, if any, to the set of compensation entries. -/
def apply_downtime (entries : List CompensationEntry) (item : Option OpenStackItem)
    (d : ServiceDowntime) : List CompensationEntry :=
  match adjust_items item d with
  | some c => c :: entries
  | none => entries

/-- Concrete package in the style of the downtime-test fixture. -/
def fixture_package : Package :=
  { tenant_name := "tenant", tenant_uuid := "7b0efbd6", template_name := "template",
    template_uuid := "3c4cf6de" }

/-- Concrete invoice item spanning day 11 to day 15 (the downtime tests set the
item to 2018-10-11 .. 2018-10-15); here the unit is one day. -/
def fixture_item : OpenStackItem :=
  { daily_price := 1, start := 11, end_ := 15, package := some fixture_package }

/-- Concrete OpenStack item spanning exactly one day, with no live package. -/
def day_item : OpenStackItem :=
  { daily_price := 1, start := 0, end_ := usecPerDay, package := none }

/-- Concrete OpenStack item spanning half a day, with no live package. -/
def half_day_item : OpenStackItem :=
  { daily_price := 1, start := 0, end_ := 43200000000, package := none }

/-- Concrete offering item spanning exactly one day, with no live offering. -/
def day_offering_item : OfferingItem :=
  { daily_price := 1, start := 0, end_ := usecPerDay, offering := none }

/-! Helper lemmas shared by the claim theorems. -/

/-- `tdDays` is Euclidean division by a positive constant. -/
theorem tdDays_eq_ediv (x : Int) : tdDays x = x / 86400000000 := by
  unfold tdDays usecPerDay
  exact Int.fdiv_eq_ediv x (by norm_num)

/-- Replacing the time of day by 23:59:59 never moves a timestamp earlier. -/
theorem le_end_of_day_replace (t : Int) : t ≤ end_of_day_replace t := by
  unfold end_of_day_replace usecPerDay usecPerSecond
  rw [Int.fdiv_eq_ediv _ (by norm_num)]
  have h1 : t % 86400000000 % 1000000 = t % 1000000 :=
    Int.emod_emod_of_dvd t (by norm_num)
  have h3 : t % 86400000000 < 86400000000 := Int.emod_lt_of_pos t (by norm_num)
  have h4 : 0 ≤ t % 86400000000 := Int.emod_nonneg t (by norm_num)
  have h5 : 86400000000 * (t / 86400000000) + t % 86400000000 = t := Int.ediv_add_emod t _
  generalize t % 86400000000 = r at h1 h3 h4 h5
  omega

/-- A difference spanning at least one full day is at least a day long. -/
theorem day_le_of_tdDays_pos {x : Int} (h : 1 ≤ tdDays x) : usecPerDay ≤ x := by
  rw [tdDays_eq_ediv] at h
  unfold usecPerDay
  omega

/-- Freezing an OpenStack item does not change its start. -/
theorem OpenStackItem.freeze_keeps_start (i : OpenStackItem) : i.freeze.start = i.start := by
  unfold OpenStackItem.freeze; cases i.package <;> rfl

/-- Freezing an OpenStack item does not change its end. -/
theorem OpenStackItem.freeze_keeps_end (i : OpenStackItem) : i.freeze.end_ = i.end_ := by
  unfold OpenStackItem.freeze; cases i.package <;> rfl

/-- Freezing an OpenStack item does not change its daily price. -/
theorem OpenStackItem.freeze_keeps_daily_price (i : OpenStackItem) :
    i.freeze.daily_price = i.daily_price := by
  unfold OpenStackItem.freeze; cases i.package <;> rfl

/-- Freezing an OpenStack item does not change its package reference. -/
theorem OpenStackItem.freeze_keeps_package (i : OpenStackItem) : i.freeze.package = i.package := by
  cases h : i.package <;> simp [OpenStackItem.freeze, h]

/-- Freezing an offering item does not change its start. -/
theorem OfferingItem.freeze_holds_start (i : OfferingItem) : i.freeze.start = i.start := by
  unfold OfferingItem.freeze; cases i.offering <;> rfl

/-- Freezing an offering item does not change its end. -/
theorem OfferingItem.freeze_holds_end (i : OfferingItem) : i.freeze.end_ = i.end_ := by
  unfold OfferingItem.freeze; cases i.offering <;> rfl

/-- Freezing an offering item does not change its daily price. -/
theorem OfferingItem.freeze_holds_daily_price (i : OfferingItem) :
    i.freeze.daily_price = i.daily_price := by
  unfold OfferingItem.freeze; cases i.offering <;> rfl

/-- Freezing an offering item does not change its offering reference. -/
theorem OfferingItem.freeze_holds_offering (i : OfferingItem) : i.freeze.offering = i.offering := by
  cases h : i.offering <;> simp [OfferingItem.freeze, h]

/-- C1: `set_created` fails with the invalid-state error whenever the invoice
state is not pending; when the state is pending it freezes every child item of
both kinds, sets the state to created and stamps the invoice date, and on the
error path no mutated invoice is produced (state and invoice date unchanged). -/
theorem C1_set_created_spec (inv : Invoice) (now_date : Int) :
    (inv.state ≠ InvoiceState.pending →
      inv.set_created now_date = Except.error "Invoice must be in pending state.") ∧
    (inv.state = InvoiceState.pending →
      inv.set_created now_date = Except.ok
        { state := InvoiceState.created,
          tax_percent := inv.tax_percent,
          invoice_date := some now_date,
          openstack_items := inv.openstack_items.map OpenStackItem.freeze,
          offering_items := inv.offering_items.map OfferingItem.freeze }) := by
  constructor
  · intro h
    simp [Invoice.set_created, h]
  · intro h
    simp [Invoice.set_created, h, Invoice.freeze]

/-- Witness for C1 at a concrete pending invoice holding one unfrozen item. -/
theorem C1_set_created_spec_witness :
    ({ state := InvoiceState.pending, tax_percent := 0, invoice_date := none,
       openstack_items := [day_item], offering_items := [] } : Invoice).set_created 7 =
      Except.ok
        { state := InvoiceState.created, tax_percent := 0, invoice_date := some 7,
          openstack_items := [day_item].map OpenStackItem.freeze, offering_items := [] } :=
  (C1_set_created_spec _ 7).2 rfl

/-- C2 fails as stated: terminating the one-day item with an end two days after
the epoch stores that end unchanged instead of the minimum with the current
end, extending the item. -/
theorem C2_terminate_counterexample :
    (day_item.terminate (some (2 * usecPerDay)) 0).end_ ≠ min (2 * usecPerDay) day_item.end_ ∧
    day_item.end_ < (day_item.terminate (some (2 * usecPerDay)) 0).end_ := by
  constructor <;> decide

/-- C2 amended: `terminate` freezes the item and stores the provided end
(defaulting to the current time) unconditionally; no clamping to the current
end happens, so an end after the current end extends the item. -/
theorem C2_terminate_spec (oi : OfferingItem) (pi : OpenStackItem)
    (endOpt : Option Int) (now : Int) :
    oi.terminate endOpt now = { oi.freeze with end_ := endOpt.getD now } ∧
    pi.terminate endOpt now = { pi.freeze with end_ := endOpt.getD now } ∧
    (oi.terminate endOpt now).end_ = endOpt.getD now ∧
    (pi.terminate endOpt now).end_ = endOpt.getD now ∧
    (oi.terminate endOpt now).start = oi.start ∧
    (oi.terminate endOpt now).daily_price = oi.daily_price ∧
    (pi.terminate endOpt now).start = pi.start ∧
    (pi.terminate endOpt now).daily_price = pi.daily_price := by
  refine ⟨rfl, rfl, rfl, rfl, ?_, ?_, ?_, ?_⟩
  · exact OfferingItem.freeze_holds_start oi
  · exact OfferingItem.freeze_holds_daily_price oi
  · exact OpenStackItem.freeze_keeps_start pi
  · exact OpenStackItem.freeze_keeps_daily_price pi

/-- C3: every compensation entry produced on downtime report negates the
affected item's daily price, spans exactly the intersection of the downtime
window and the item's window, and is therefore contained in the item's window;
a downtime enclosing the item yields the item's window, a downtime inside the
item yields the downtime window. -/
theorem C3_compensation_spec (it : OpenStackItem) (d : ServiceDowntime) (c : CompensationEntry)
    (h : adjust_items (some it) d = some c) :
    c.daily_price = -it.daily_price ∧
    c.start = max d.start it.start ∧
    c.end_ = min d.end_ it.end_ ∧
    it.start ≤ c.start ∧ c.end_ ≤ it.end_ ∧
    (d.start ≤ it.start → it.end_ ≤ d.end_ → c.start = it.start ∧ c.end_ = it.end_) ∧
    (it.start ≤ d.start → d.end_ ≤ it.end_ → c.start = d.start ∧ c.end_ = d.end_) := by
  cases hp : it.package with
  | none => simp [adjust_items, hp] at h
  | some p =>
      by_cases hdisj : d.end_ ≤ it.start ∨ it.end_ ≤ d.start
      · simp [adjust_items, intersect, hp, hdisj] at h
      · simp only [adjust_items, intersect, hp, if_neg hdisj, Option.some.injEq] at h
        subst h
        exact ⟨rfl, rfl, rfl, le_max_right _ _, min_le_right _ _,
          fun h1 h2 => ⟨max_eq_right h1, min_eq_right h2⟩,
          fun h1 h2 => ⟨max_eq_left h1, min_eq_left h2⟩⟩

/-- Witness for C3: the fixture item spans days 11 to 15 and the downtime
days 1 to 20, so the entry spans the item's window with price negated. -/
theorem C3_compensation_spec_witness :
    (⟨11, 15, -1⟩ : CompensationEntry).daily_price = -fixture_item.daily_price ∧
    fixture_item.start ≤ (⟨11, 15, -1⟩ : CompensationEntry).start ∧
    (⟨11, 15, -1⟩ : CompensationEntry).end_ ≤ fixture_item.end_ := by
  have h := C3_compensation_spec fixture_item { package := 0, start := 1, end_ := 20 }
    ⟨11, 15, -1⟩ (by decide)
  exact ⟨h.1, h.2.2.2.1, h.2.2.2.2.1⟩

/-- C4: reporting a downtime that does not intersect the item's window, or one
whose affected item has a cleared package reference, creates no compensation
entry and leaves the set of compensation entries unchanged. -/
theorem C4_no_compensation (entries : List CompensationEntry) (it : OpenStackItem)
    (d : ServiceDowntime) :
    ((d.end_ ≤ it.start ∨ it.end_ ≤ d.start) → apply_downtime entries (some it) d = entries) ∧
    (it.package = none → apply_downtime entries (some it) d = entries) := by
  constructor
  · intro h
    unfold apply_downtime adjust_items intersect
    cases hp : it.package <;> simp [hp, h]
  · intro hp
    unfold apply_downtime adjust_items
    simp [hp]

/-- Witness for C4: the fixture item spans days 11 to 15; a downtime over
days 1 to 7 adds nothing to an empty set of compensation entries. -/
theorem C4_no_compensation_witness :
    apply_downtime [] (some fixture_item) { package := 0, start := 1, end_ := 7 } = [] :=
  (C4_no_compensation [] fixture_item { package := 0, start := 1, end_ := 7 }).1 (by decide)

/-- C5: downtime validation rejects a new window for a resource whenever an
existing window of the same resource satisfies the overlap test
(existing.start less than new.end and new.start less than existing.end), and a
successful report preserves pairwise non-overlap of the registry, so the
registry never holds two overlapping windows for one resource. -/
theorem C5_downtime_no_overlap (registry : List ServiceDowntime) (d : ServiceDowntime)
    (now : Int) (cfg : DowntimeConfig) :
    (∀ e ∈ registry, e.package = d.package → e.start < d.end_ → d.start < e.end_ →
      report registry d now cfg = Except.error "ValidationError") ∧
    (List.Pairwise (fun a b => ¬ downtime_overlap a b) registry →
      ∀ reg2, report registry d now cfg = Except.ok reg2 →
        List.Pairwise (fun a b => ¬ downtime_overlap a b) reg2) := by
  constructor
  · intro e he h1 h2 h3
    have hc : ¬ (d.clean registry now cfg = true) := by
      intro hc
      unfold ServiceDowntime.clean at hc
      simp only [Bool.and_eq_true, List.all_eq_true] at hc
      have h4 := hc.2 e he
      rw [Bool.not_eq_true', decide_eq_false_iff_not] at h4
      exact h4 ⟨h1, h2, h3⟩
    unfold report
    rw [if_neg hc]
  · intro hpw reg2 hok
    unfold report at hok
    by_cases hc : d.clean registry now cfg = true
    · rw [if_pos hc] at hok
      injection hok with hok
      subst hok
      refine List.Pairwise.cons ?_ hpw
      intro e he hov
      unfold ServiceDowntime.clean at hc
      simp only [Bool.and_eq_true, List.all_eq_true] at hc
      have h4 := hc.2 e he
      rw [Bool.not_eq_true', decide_eq_false_iff_not] at h4
      exact h4 ⟨hov.1.symm, hov.2.2, hov.2.1⟩
    · rw [if_neg hc] at hok
      exact absurd hok (by simp)

/-- Witness for C5: reporting a valid window into an empty registry yields a
registry that is pairwise non-overlapping. -/
theorem C5_downtime_no_overlap_witness :
    List.Pairwise (fun a b => ¬ downtime_overlap a b)
      [({ package := 0, start := 0, end_ := 1 } : ServiceDowntime)] :=
  (C5_downtime_no_overlap [] { package := 0, start := 0, end_ := 1 } 1
      { offset := 100, max_duration := 100 }).2
    List.Pairwise.nil _ rfl

/-- C6 fails as stated: `terminate` invoked with an end before the item's
start, and `shift_backward` invoked with a negative day count on a sub-day
item, both break the start-before-end invariant on well-formed items. -/
theorem C6_invariants_counterexample :
    day_item.start ≤ day_item.end_ ∧ 0 ≤ day_item.daily_price ∧
    ¬ ((day_item.terminate (some (-1)) 0).start ≤ (day_item.terminate (some (-1)) 0).end_) ∧
    half_day_item.start ≤ half_day_item.end_ ∧
    ¬ ((half_day_item.shift_backward (-1)).start ≤ (half_day_item.shift_backward (-1)).end_) := by
  decide

/-- C6 amended: `shift_backward` with a non-negative day count and
`extend_to_the_end_of_the_day` preserve the start-before-end invariant, and
`terminate` preserves it exactly when the stored end (the provided end, or now
by default) is at or after the start; none of the three operations changes
`daily_price`, so its non-negativity is preserved by all of them. -/
theorem C6_invariants (pi : OpenStackItem) (oi : OfferingItem) (days e now : Int) :
    (0 ≤ days → pi.start ≤ pi.end_ →
      (pi.shift_backward days).start ≤ (pi.shift_backward days).end_) ∧
    (pi.start ≤ pi.end_ →
      pi.extend_to_the_end_of_the_day.start ≤ pi.extend_to_the_end_of_the_day.end_) ∧
    (pi.start ≤ e → (pi.terminate (some e) now).start ≤ (pi.terminate (some e) now).end_) ∧
    (pi.start ≤ now → (pi.terminate none now).start ≤ (pi.terminate none now).end_) ∧
    (oi.start ≤ e → (oi.terminate (some e) now).start ≤ (oi.terminate (some e) now).end_) ∧
    (oi.start ≤ now → (oi.terminate none now).start ≤ (oi.terminate none now).end_) ∧
    (pi.shift_backward days).daily_price = pi.daily_price ∧
    pi.extend_to_the_end_of_the_day.daily_price = pi.daily_price ∧
    (pi.terminate (some e) now).daily_price = pi.daily_price ∧
    (oi.terminate (some e) now).daily_price = oi.daily_price := by
  refine ⟨?_, ?_, ?_, ?_, ?_, ?_, ?_, rfl, ?_, ?_⟩
  · intro hd hse
    unfold OpenStackItem.shift_backward
    by_cases hgt : tdDays (pi.end_ - pi.start) > days
    · rw [if_pos hgt]
      show pi.start ≤ pi.end_ - usecPerDay
      have h1 : (1 : Int) ≤ tdDays (pi.end_ - pi.start) := by omega
      have h2 := day_le_of_tdDays_pos h1
      omega
    · rw [if_neg hgt]
  · intro hse
    show pi.start ≤ end_of_day_replace pi.end_
    exact le_trans hse (le_end_of_day_replace _)
  · intro hle
    show pi.freeze.start ≤ e
    rw [OpenStackItem.freeze_keeps_start]
    exact hle
  · intro hle
    show pi.freeze.start ≤ now
    rw [OpenStackItem.freeze_keeps_start]
    exact hle
  · intro hle
    show oi.freeze.start ≤ e
    rw [OfferingItem.freeze_holds_start]
    exact hle
  · intro hle
    show oi.freeze.start ≤ now
    rw [OfferingItem.freeze_holds_start]
    exact hle
  · unfold OpenStackItem.shift_backward
    by_cases hgt : tdDays (pi.end_ - pi.start) > days
    · rw [if_pos hgt]
    · rw [if_neg hgt]
  · show pi.freeze.daily_price = pi.daily_price
    exact OpenStackItem.freeze_keeps_daily_price pi
  · show oi.freeze.daily_price = oi.daily_price
    exact OfferingItem.freeze_holds_daily_price oi

/-- Witness for C6 at the one-day items. -/
theorem C6_invariants_witness :
    (day_item.shift_backward 1).start ≤ (day_item.shift_backward 1).end_ ∧
    (day_item.terminate (some usecPerDay) 0).start ≤
      (day_item.terminate (some usecPerDay) 0).end_ := by
  have h := C6_invariants day_item day_offering_item 1 usecPerDay 0
  exact ⟨h.1 (by decide) (by decide), h.2.2.1 (by decide)⟩

/-- C7: `freeze` is idempotent on both item kinds, producing an identical
details blob and whole item on the second call, and is a complete no-op when
the live source reference is absent. -/
theorem C7_freeze_idempotent (oi : OfferingItem) (pi : OpenStackItem) :
    oi.freeze.freeze = oi.freeze ∧ (oi.offering = none → oi.freeze = oi) ∧
    pi.freeze.freeze = pi.freeze ∧ (pi.package = none → pi.freeze = pi) := by
  refine ⟨?_, ?_, ?_, ?_⟩
  · cases h : oi.offering <;> simp [OfferingItem.freeze, h]
  · intro h
    simp [OfferingItem.freeze, h]
  · cases h : pi.package <;> simp [OpenStackItem.freeze, h]
  · intro h
    simp [OpenStackItem.freeze, h]

/-- Witness for C7: the fixture items with absent source references are left
untouched by `freeze`. -/
theorem C7_freeze_idempotent_witness :
    day_offering_item.freeze = day_offering_item ∧ day_item.freeze = day_item := by
  have h := C7_freeze_idempotent day_offering_item day_item
  exact ⟨h.2.1 rfl, h.2.2.2 rfl⟩

/-- C8: `freeze` leaves start, end and daily price unchanged on both item
kinds, so `usage_days` and `price` are invariant under freezing. -/
theorem C8_freeze_frame (oi : OfferingItem) (pi : OpenStackItem) :
    oi.freeze.start = oi.start ∧ oi.freeze.end_ = oi.end_ ∧
    oi.freeze.daily_price = oi.daily_price ∧
    oi.freeze.usage_days = oi.usage_days ∧ oi.freeze.price = oi.price ∧
    pi.freeze.start = pi.start ∧ pi.freeze.end_ = pi.end_ ∧
    pi.freeze.daily_price = pi.daily_price ∧
    pi.freeze.usage_days = pi.usage_days ∧ pi.freeze.price = pi.price := by
  refine ⟨OfferingItem.freeze_holds_start oi, OfferingItem.freeze_holds_end oi,
    OfferingItem.freeze_holds_daily_price oi, ?_, ?_,
    OpenStackItem.freeze_keeps_start pi, OpenStackItem.freeze_keeps_end pi,
    OpenStackItem.freeze_keeps_daily_price pi, ?_, ?_⟩
  · unfold OfferingItem.usage_days
    rw [OfferingItem.freeze_holds_start, OfferingItem.freeze_holds_end]
  · unfold OfferingItem.price OfferingItem.usage_days
    rw [OfferingItem.freeze_holds_start, OfferingItem.freeze_holds_end, OfferingItem.freeze_holds_daily_price]
  · unfold OpenStackItem.usage_days
    rw [OpenStackItem.freeze_keeps_start, OpenStackItem.freeze_keeps_end]
  · unfold OpenStackItem.price OpenStackItem.usage_days
    rw [OpenStackItem.freeze_keeps_start, OpenStackItem.freeze_keeps_end, OpenStackItem.freeze_keeps_daily_price]

/-- C9: per-item price is daily price times the whole-day count between start
and end, item tax and total mirror the invoice formulas with the invoice's tax
percent, and the invoice price is the sum of the prices of the child items of
both kinds, with tax a percentage of price and total their sum. -/
theorem C9_pricing (oi : OfferingItem) (pi : OpenStackItem) (tp : ℚ) (inv : Invoice) :
    oi.price = oi.daily_price * (get_full_days oi.start oi.end_ : ℚ) ∧
    oi.tax tp = oi.price * tp / 100 ∧
    oi.total tp = oi.price + oi.tax tp ∧
    pi.price = pi.daily_price * (get_full_days pi.start pi.end_ : ℚ) ∧
    pi.tax tp = pi.price * tp / 100 ∧
    pi.total tp = pi.price + pi.tax tp ∧
    inv.price = (inv.openstack_items.map fun i => i.daily_price * (i.usage_days : ℚ)).sum +
      (inv.offering_items.map fun i => i.daily_price * (i.usage_days : ℚ)).sum ∧
    inv.tax = inv.price * inv.tax_percent / 100 ∧
    inv.total = inv.price + inv.tax := by
  refine ⟨rfl, rfl, rfl, rfl, rfl, rfl, ?_, rfl, rfl⟩
  unfold Invoice.price
  rw [List.sum_append]
  rfl

/-- C10: `shift_backward` with a positive day count collapses the window to
zero length when the whole-day span is not strictly greater than the argument,
and otherwise moves the end exactly one day back, independently of the
argument's value. -/
theorem C10_shift_backward_spec (pi : OpenStackItem) (days : Int) (hd : 1 ≤ days) :
    (tdDays (pi.end_ - pi.start) ≤ days →
      pi.shift_backward days = { pi with end_ := pi.start }) ∧
    (days < tdDays (pi.end_ - pi.start) →
      pi.shift_backward days = { pi with end_ := pi.end_ - usecPerDay }) := by
  constructor
  · intro h
    unfold OpenStackItem.shift_backward
    rw [if_neg (by omega)]
  · intro h
    unfold OpenStackItem.shift_backward
    rw [if_pos (by omega)]

/-- Witness for C10: the one-day item spans exactly one whole day, so shifting
it back by one day collapses it to zero length. -/
theorem C10_shift_backward_spec_witness :
    day_item.shift_backward 1 = { day_item with end_ := day_item.start } :=
  (C10_shift_backward_spec day_item 1 (by decide)).1 (by decide)

end Waldur
